import Mathlib

/-!
Verification of the response-to-structured-data pipeline of `scripts/run_prompt.py`.

This file is a shallow embedding of the core of `scripts/run_prompt.py`:

* `_extract_json` (lines 24-36): best-effort JSON extractor -- direct
  `json.loads`, then a fenced-code-block regex search, then a greedy
  first-`[`-to-last-`]` bracket scan;
* `_call_responses_with_retry` (lines 38-61): one call to the remote
  endpoint, retried exactly once on a transport-level error after a fixed
  1.5 second delay;
* `call_llm` (lines 63-115): empty-payload check, extraction, and the
  minimal per-item shape validation (each element an object carrying the
  keys `title`, `url`, `summary`, `published`).

Python's `json.loads` (the default C scanner with `strict=True`) is embedded
as an executable fuel-based recursive-descent function over `List Char`.
JSON strings are decoded to code-point lists (`List Nat`), since CPython
keeps lone surrogates that `Char` cannot represent; numbers are kept as
their matched lexeme, since the pipeline performs no numeric coercion.
`sys.exit(1)` is modelled by returning `Except.error` with the fault that
was logged; `time.sleep` and the outbound calls are modelled by an explicit
event log.
-/

/-- The JSON values produced by the embedded `json.loads`.  Object entries
keep their source order and duplicates; the pipeline only ever tests key
membership, which agrees with the Python `dict` built by `json.loads`. -/
inductive Json where
  | null : Json
  | bool (b : Bool) : Json
  | num (lexeme : List Char) : Json
  | str (codepoints : List Nat) : Json
  | arr (items : List Json) : Json
  | obj (entries : List (List Nat × Json)) : Json
deriving Repr

/-- JSON whitespace, as in CPython's `json` module (`WHITESPACE_STR = ' \t\n\r'`). -/
def jsonWs (c : Char) : Bool :=
  c = ' ' || c = '\t' || c = '\n' || c = '\r'

/-- Skip JSON whitespace, as CPython's `_w(s, end).end()`. -/
def skipWs (cs : List Char) : List Char :=
  cs.dropWhile jsonWs

/-- ASCII decimal digit test (the C scanner of `json` accepts ASCII digits only). -/
def isDigitC (c : Char) : Bool :=
  48 ≤ c.toNat && c.toNat ≤ 57

/-- Value of one hex digit, as accepted by the `\uXXXX` escape of the C scanner. -/
def hexVal (c : Char) : Option Nat :=
  let n := c.toNat
  if 48 ≤ n ∧ n ≤ 57 then some (n - 48)
  else if 97 ≤ n ∧ n ≤ 102 then some (n - 97 + 10)
  else if 65 ≤ n ∧ n ≤ 70 then some (n - 65 + 10)
  else none

/-- Four hex digits after `\u`, returning the code unit and the rest. -/
def parseU4 (cs : List Char) : Option (Nat × List Char) :=
  match cs with
  | a :: b :: c :: d :: rest =>
    match hexVal a, hexVal b, hexVal c, hexVal d with
    | some x, some y, some z, some w => some (((x * 16 + y) * 16 + z) * 16 + w, rest)
    | _, _, _, _ => none
  | _ => none

/-- Single-character escapes of `json` (the `BACKSLASH` table). -/
def escMap (c : Char) : Option Nat :=
  if c = '"' then some 34
  else if c = '\\' then some 92
  else if c = '/' then some 47
  else if c = 'b' then some 8
  else if c = 'f' then some 12
  else if c = 'n' then some 10
  else if c = 'r' then some 13
  else if c = 't' then some 9
  else none

/-- Body of a JSON string after the opening quote, per CPython's
`scanstring` with `strict=True`: raw characters up to `"` or `\`, control
characters below 0x20 rejected, the eight simple escapes, and `\uXXXX`
with surrogate-pair combination (a lone surrogate is kept as a raw code
point, as CPython does).  Returns the decoded code points and the input
after the closing quote. -/
def parseStringBody : Nat → List Char → Option (List Nat × List Char)
  | 0, _ => none
  | _, [] => none
  | fuel + 1, c :: cs =>
    if c = '"' then some ([], cs)
    else if c = '\\' then
      match cs with
      | [] => none
      | e :: cs2 =>
        if e = 'u' then
          match parseU4 cs2 with
          | none => none
          | some (u, cs3) =>
            if 0xd800 ≤ u ∧ u ≤ 0xdbff then
              match cs3 with
              | '\\' :: 'u' :: cs4 =>
                match parseU4 cs4 with
                | none => none
                | some (u2, cs5) =>
                  if 0xdc00 ≤ u2 ∧ u2 ≤ 0xdfff then
                    (parseStringBody fuel cs5).map
                      (fun p => ((0x10000 + (u - 0xd800) * 0x400 + (u2 - 0xdc00)) :: p.1, p.2))
                  else
                    (parseStringBody fuel cs3).map (fun p => (u :: p.1, p.2))
              | _ => (parseStringBody fuel cs3).map (fun p => (u :: p.1, p.2))
            else
              (parseStringBody fuel cs3).map (fun p => (u :: p.1, p.2))
        else
          match escMap e with
          | some code => (parseStringBody fuel cs2).map (fun p => (code :: p.1, p.2))
          | none => none
    else if c.toNat < 0x20 then none
    else (parseStringBody fuel cs).map (fun p => (c.toNat :: p.1, p.2))

/-- Integer part of the JSON number grammar `-?(0|[1-9][0-9]*)`, after the
optional sign has been taken: a lone `0`, or a nonzero digit followed by
digits. -/
def parseIntPart (cs : List Char) : Option (List Char × List Char) :=
  match cs with
  | [] => none
  | c :: r =>
    if c = '0' then some (['0'], r)
    else if isDigitC c then some (c :: r.takeWhile isDigitC, r.dropWhile isDigitC)
    else none

/-- Optional fraction part `(\.[0-9]+)?`; on no match the input is untouched. -/
def parseFracPart (cs : List Char) : List Char × List Char :=
  match cs with
  | '.' :: r =>
    match r.takeWhile isDigitC with
    | [] => ([], cs)
    | ds => ('.' :: ds, r.dropWhile isDigitC)
  | _ => ([], cs)

/-- Optional exponent part `([eE][-+]?[0-9]+)?`; on no match the input is untouched. -/
def parseExpPart (cs : List Char) : List Char × List Char :=
  match cs with
  | e :: r =>
    if e = 'e' ∨ e = 'E' then
      match r with
      | s :: r2 =>
        if s = '+' ∨ s = '-' then
          match r2.takeWhile isDigitC with
          | [] => ([], cs)
          | ds => ([e, s] ++ ds, r2.dropWhile isDigitC)
        else
          match r.takeWhile isDigitC with
          | [] => ([], cs)
          | ds => (e :: ds, r.dropWhile isDigitC)
      | [] => ([], cs)
    else ([], cs)
  | [] => ([], cs)

/-- A JSON number at the head of the input, per the scanner's
`NUMBER_RE = (-?(?:0|[1-9]\d*))(\.\d+)?([eE][-+]?\d+)?` (maximal match);
the value keeps its lexeme, since the pipeline never coerces numbers. -/
def parseNumber (cs : List Char) : Option (Json × List Char) :=
  let sgn : List Char × List Char :=
    match cs with
    | c :: r => if c = '-' then (['-'], r) else ([], cs)
    | [] => ([], cs)
  match parseIntPart sgn.2 with
  | none => none
  | some (ip, r1) =>
    let fp := parseFracPart r1
    let ep := parseExpPart fp.2
    some (.num (sgn.1 ++ ip ++ fp.1 ++ ep.1), ep.2)

mutual

/-- One JSON value at the head of the input, per CPython's `scan_once`:
dispatch on the first character to string, object, array, the three
literals, a number, or the `NaN`/`Infinity`/`-Infinity` constants.  No
leading whitespace is skipped (the callers do that, as in CPython). -/
def parseValue : Nat → List Char → Option (Json × List Char)
  | 0, _ => none
  | _, [] => none
  | fuel + 1, c :: cs =>
    if c = '"' then (parseStringBody fuel cs).map (fun p => (.str p.1, p.2))
    else if c = '\x7b' then parseObject fuel cs
    else if c = '[' then parseArray fuel cs
    else if c = 'n' then
      match cs with
      | 'u' :: 'l' :: 'l' :: r => some (.null, r)
      | _ => none
    else if c = 't' then
      match cs with
      | 'r' :: 'u' :: 'e' :: r => some (.bool true, r)
      | _ => none
    else if c = 'f' then
      match cs with
      | 'a' :: 'l' :: 's' :: 'e' :: r => some (.bool false, r)
      | _ => none
    else
      match parseNumber (c :: cs) with
      | some p => some p
      | none =>
        if c = 'N' then
          match cs with
          | 'a' :: 'N' :: r => some (.num ['N', 'a', 'N'], r)
          | _ => none
        else if c = 'I' then
          match cs with
          | 'n' :: 'f' :: 'i' :: 'n' :: 'i' :: 't' :: 'y' :: r =>
            some (.num ['I', 'n', 'f', 'i', 'n', 'i', 't', 'y'], r)
          | _ => none
        else if c = '-' then
          match cs with
          | 'I' :: 'n' :: 'f' :: 'i' :: 'n' :: 'i' :: 't' :: 'y' :: r =>
            some (.num ['-', 'I', 'n', 'f', 'i', 'n', 'i', 't', 'y'], r)
          | _ => none
        else none

/-- A JSON array after the opening `[`, per `JSONArray`: skip whitespace,
an immediate `]` gives the empty array, otherwise parse the element list. -/
def parseArray : Nat → List Char → Option (Json × List Char)
  | 0, _ => none
  | fuel + 1, cs =>
    match skipWs cs with
    | ']' :: r => some (.arr [], r)
    | cs2 => (parseElems fuel cs2).map (fun p => (.arr p.1, p.2))

/-- The comma-separated elements of a nonempty array: a value, then after
whitespace either `,` (and more elements after whitespace) or `]`. -/
def parseElems : Nat → List Char → Option (List Json × List Char)
  | 0, _ => none
  | fuel + 1, cs =>
    match parseValue fuel cs with
    | none => none
    | some (v, r1) =>
      match skipWs r1 with
      | ',' :: r2 =>
        match parseElems fuel (skipWs r2) with
        | some (vs, r3) => some (v :: vs, r3)
        | none => none
      | ']' :: r2 => some ([v], r2)
      | _ => none

/-- A JSON object after the opening brace, per `JSONObject`: skip
whitespace, an immediate closing brace gives the empty object, otherwise a
`"`-opened key starts the member list. -/
def parseObject : Nat → List Char → Option (Json × List Char)
  | 0, _ => none
  | fuel + 1, cs =>
    match skipWs cs with
    | '\x7d' :: r => some (.obj [], r)
    | '"' :: r => (parseMembers fuel r).map (fun p => (.obj p.1, p.2))
    | _ => none

/-- The members of a nonempty object, entered just after the opening `"` of
a key: the key string, whitespace, `:`, whitespace, a value, whitespace,
then `,` (whitespace, and the `"` of the next key) or the closing brace. -/
def parseMembers : Nat → List Char → Option (List (List Nat × Json) × List Char)
  | 0, _ => none
  | fuel + 1, cs =>
    match parseStringBody fuel cs with
    | none => none
    | some (key, r1) =>
      match skipWs r1 with
      | ':' :: r2 =>
        match parseValue fuel (skipWs r2) with
        | none => none
        | some (v, r3) =>
          match skipWs r3 with
          | ',' :: r4 =>
            match skipWs r4 with
            | '"' :: r5 =>
              match parseMembers fuel r5 with
              | some (es, r6) => some ((key, v) :: es, r6)
              | none => none
            | _ => none
          | '\x7d' :: r4 => some ([(key, v)], r4)
          | _ => none
      | _ => none

end

/-- Model of `json.loads` on a character list: skip leading whitespace, read one
value, and require that only whitespace remains (CPython's "Extra data"
check).  The fuel over-approximates the number of recursive calls any
parse of the input can make. -/
def parseJsonL (cs : List Char) : Option Json :=
  match parseValue (8 * cs.length + 16) (skipWs cs) with
  | some (v, rest) => if skipWs rest = [] then some v else none
  | none => none

/-- Model of `json.loads` on a string payload. -/
def json_loads (s : String) : Option Json :=
  parseJsonL s.data

/-- Characters stripped by Python's `str.strip()` (the `str.isspace`
whitespace set, which is wider than JSON whitespace). -/
def pyWs (c : Char) : Bool :=
  (9 ≤ c.toNat && c.toNat ≤ 13) || (28 ≤ c.toNat && c.toNat ≤ 31) || c.toNat == 32 ||
    c.toNat == 0x85 || c.toNat == 0xa0 || c.toNat == 0x1680 ||
    (0x2000 ≤ c.toNat && c.toNat ≤ 0x200a) || c.toNat == 0x2028 || c.toNat == 0x2029 ||
    c.toNat == 0x202f || c.toNat == 0x205f || c.toNat == 0x3000

/-- The test `not text.strip()` of line 90: the payload is empty or whitespace-only. -/
def pyBlank (s : String) : Bool :=
  s.data.all pyWs

/-- Drop characters until the head is `c`; `none` if `c` never occurs.
Building block for the semantics of `re.search(r"(\[.*\])", text, re.DOTALL)`. -/
def dropUntil (c : Char) : List Char → Option (List Char)
  | [] => none
  | x :: xs => if x = c then some (x :: xs) else dropUntil c xs

/-- The group matched by `re.search(r"(\[.*\])", text, re.DOTALL)` at line
33: the substring from the first `[` of the payload to the last `]` at or
after it (leftmost match start, greedy `.*`), or `none` when no such pair
exists. -/
def bracketSlice (cs : List Char) : Option (List Char) :=
  match dropUntil '[' cs with
  | none => none
  | some t1 =>
    match dropUntil ']' t1.reverse with
    | none => none
    | some t2 => some t2.reverse

/-- Positions of `cs` at which Python's `$` anchor matches when
`re.MULTILINE` is off: the end of the string, or just before a newline
that ends the string. -/
def dollarAnchorAt (cs : List Char) (p : Nat) : Prop :=
  p = cs.length ∨ (p + 1 = cs.length ∧ cs.drop p = ['\n'])

/-- The literal `lit` occurs in `cs` starting at position `p`. -/
def literalAt (cs : List Char) (p : Nat) (lit : List Char) : Prop :=
  (cs.drop p).take lit.length = lit

/-- The literal characters that the corrupted pattern requires immediately
after its first `$` anchor. -/
def beginMathDisplay : List Char :=
  ['b', 'e', 'g', 'i', 'n', ':', 'm', 'a', 't', 'h', ':', 'd', 'i', 's', 'p', 'l', 'a', 'y']

/-- Line 30's pattern is
`r"```(?:json)?\s*($begin:math:display$.*?$end:math:display$)\s*```"`: the
`\[` and `\]` that were meant to delimit the capture group were corrupted
into the literal text `$begin:math:display$` / `$end:math:display$`, in
which `$` is the end-of-string anchor.  Any match would need a position
satisfying the anchor that is immediately followed by the eighteen literal
characters `begin:math:display`; no such position exists in any input
(proved as `fencedPattern_unmatchable` below), so the `re.search` of line
30 returns `None` on every payload and this embedding is the constant
`none`. -/
def fencedGroup (_cs : List Char) : Option (List Char) :=
  none

/-- No input has an anchor position followed by the required literal: an
anchor position leaves at most one character of input, and the literal
needs eighteen. -/
theorem fencedPattern_unmatchable (cs : List Char) (p : Nat)
    (hanchor : dollarAnchorAt cs p) (hlit : literalAt cs p beginMathDisplay) : False := by
  have hlen : (cs.drop p).length ≤ 1 := by
    rcases hanchor with h | ⟨h, _⟩ <;> simp [List.length_drop] <;> omega
  have h2 := congrArg List.length hlit
  simp only [beginMathDisplay, List.length_take, List.length_drop] at h2 hlen
  simp at h2
  omega

/-- Model of `_extract_json` (lines 24-36) on a character list.  `Except.error ()`
is the `json.JSONDecodeError` that escapes the function -- raised by line
36 when no strategy applies, or by the unguarded `json.loads` of lines 32
and 35 when a searched substring does not parse. -/
def extractL (cs : List Char) : Except Unit Json :=
  match parseJsonL cs with
  | some v => .ok v
  | none =>
    match fencedGroup cs with
    | some g =>
      match parseJsonL g with
      | some v => .ok v
      | none => .error ()
    | none =>
      match bracketSlice cs with
      | some g =>
        match parseJsonL g with
        | some v => .ok v
        | none => .error ()
      | none => .error ()

/-- Model of `_extract_json` on a string payload. -/
def extract_json (s : String) : Except Unit Json :=
  extractL s.data

/-- The fatal conditions of `call_llm`; each is logged and followed by
`sys.exit(1)`. -/
inductive Fault where
  /-- line 82: the request failed again after the single retry. -/
  | transport : Fault
  /-- line 91: empty or whitespace-only payload. -/
  | emptyPayload : Fault
  /-- line 97: no parse strategy recovered a JSON value. -/
  | malformedPayload : Fault
  /-- line 102: the recovered value is not an array. -/
  | notArray : Fault
  /-- line 108: element `i` is not an object. -/
  | itemNotObject (i : Nat) : Fault
  /-- line 112: element `i` lacks required key `k` (as code points). -/
  | missingKey (i : Nat) (k : List Nat) : Fault
deriving DecidableEq, Repr

/-- Code points of an ASCII key name. -/
def codes (s : String) : List Nat :=
  s.data.map Char.toNat

/-- The required keys of line 110, in the order the loop checks them. -/
def requiredKeys : List (List Nat) :=
  [codes "title", codes "url", codes "summary", codes "published"]

/-- The test `k in it` on an embedded object: some entry has key `k`. -/
def hasKey (es : List (List Nat × Json)) (k : List Nat) : Bool :=
  es.any (fun e => e.1 == k)

/-- The first required key absent from `es`, in the loop order of line 110. -/
def firstMissing (es : List (List Nat × Json)) : Option (List Nat) :=
  requiredKeys.find? (fun k => !hasKey es k)

/-- One item passes the minimal schema check: it is an object and no
required key is missing.  Values are never inspected. -/
def itemOk (it : Json) : Bool :=
  match it with
  | .obj es => (firstMissing es).isNone
  | _ => false

/-- The validation loop of lines 106-113 starting at index `i`: the first
non-object or key-missing element produces its fault; otherwise `none`. -/
def checkItems : Nat → List Json → Option Fault
  | _, [] => none
  | i, .obj es :: rest =>
    match firstMissing es with
    | some k => some (.missingKey i k)
    | none => checkItems (i + 1) rest
  | i, _ :: _ => some (.itemNotObject i)

/-- Lines 89-115 of `call_llm`: the handling of a successfully returned
text payload.  The blank check of lines 90-92 precedes every parse
attempt; extraction faults, the non-array check of line 101, and the
element checks of lines 106-113 each exit; otherwise the parsed items are
returned verbatim. -/
def processPayload (text : String) : Except Fault (List Json) :=
  if pyBlank text then .error .emptyPayload
  else
    match extract_json text with
    | .error _ => .error .malformedPayload
    | .ok (.arr items) =>
      match checkItems 0 items with
      | some f => .error f
      | none => .ok items
    | .ok _ => .error .notArray

/-- The request body built at lines 42-49 and (identically) 54-61:
`model`, the tool list (each tool by its `type` tag), and the system and
user messages. -/
structure Request where
  model : String
  tools : List String
  system : String
  user : String
deriving DecidableEq, Repr

/-- The request both attempts send. -/
def mkRequest (systemMsg userPrompt : String) : Request :=
  ⟨"gpt-5", ["web_search"], systemMsg, userPrompt⟩

/-- Externally visible steps of `_call_responses_with_retry`: an outbound
`client.responses.create` carrying its request, or a `time.sleep` of the
given number of seconds. -/
inductive Event where
  | call (req : Request) : Event
  | sleepEv (seconds : ℚ) : Event
deriving DecidableEq, Repr

/-- The default `retry_delay` of line 38: 1.5 seconds. -/
def defaultRetryDelay : ℚ :=
  3 / 2

/-- A transport-level fault (`httpx.ReadTimeout`, `httpx.ConnectTimeout`,
or any other `httpx.HTTPError`), carried by its class name. -/
abbrev TransportError := String

/-- The transport is the behavior of `client.responses.create`: given the
request and the zero-based attempt number, it either raises a
transport-level fault or returns the response's `output_text` (with
`resp.output_text or ""` already applied). -/
abbrev Transport := Request → Nat → Except TransportError String

/-- Model of `_call_responses_with_retry` (lines 38-61): one attempt; on a
transport-level fault, sleep `retryDelay` seconds and make exactly one
more attempt with an identical request, whose outcome (success or fault)
is final.  Returns the event log alongside the outcome. -/
def call_responses_with_retry (transport : Transport) (systemMsg userPrompt : String)
    (retryDelay : ℚ) : List Event × Except TransportError String :=
  let req := mkRequest systemMsg userPrompt
  match transport req 0 with
  | .ok r => ([.call req], .ok r)
  | .error _ =>
    match transport req 1 with
    | .ok r => ([.call req, .sleepEv retryDelay, .call req], .ok r)
    | .error e2 => ([.call req, .sleepEv retryDelay, .call req], .error e2)

/-- The system instruction string of lines 68-76. -/
def system_msg : String :=
  "You must use web search before answering. Find 12 recent news articles " ++
  "(last 30 days) emphasizing: how people are using AI, especially in " ++
  "education, blogging, US politics, science; and NBA/MLB with slight emphasis " ++
  "on the New York Knicks and New York Mets. De-duplicate domains and topics. " ++
  "Return only JSON (no prose), as an array of objects with exactly these keys: " ++
  "title, url, summary, published. Use canonical article URLs. " ++
  "Use ISO 8601 UTC \"YYYY-MM-DDTHH:MM:SSZ\" for published."

/-- Model of `call_llm` (lines 63-115): call with retry (a fault surviving the
retry is caught at line 80 and exits), then process the returned payload. -/
def call_llm (transport : Transport) (prompt : String) :
    List Event × Except Fault (List Json) :=
  match call_responses_with_retry transport system_msg prompt defaultRetryDelay with
  | (evs, .error _) => (evs, .error .transport)
  | (evs, .ok text) => (evs, processPayload text)

/-! ## Supporting lemmas about the embedded functions -/

/-- The scanner fails on empty input, whatever the fuel. -/
theorem parseValue_nil (fuel : Nat) : parseValue fuel [] = none := by
  cases fuel <;> rfl

/-- Characters on which `scan_once`'s dispatch finds no branch: not a
string, object, array, literal, number, or constant start. -/
def notStartChar (c : Char) : Bool :=
  !(c = '"' || c = '\x7b' || c = '[' || c = 'n' || c = 't' || c = 'f' ||
    c = 'N' || c = 'I' || c = '-' || isDigitC c)

/-- Dispatch failure: a value cannot start at a `notStartChar`. -/
theorem parseValue_bad_start (fuel : Nat) (c : Char) (cs : List Char)
    (h : notStartChar c = true) : parseValue fuel (c :: cs) = none := by
  simp only [notStartChar, Bool.not_eq_true', Bool.or_eq_false_iff, decide_eq_false_iff_not] at h
  obtain ⟨⟨⟨⟨⟨⟨⟨⟨⟨h1, h2⟩, h3⟩, h4⟩, h5⟩, h6⟩, h7⟩, h8⟩, h9⟩, h0⟩ := h
  cases fuel with
  | zero => rfl
  | succ fuel =>
    have hc0 : c ≠ '0' := by
      intro hc
      rw [hc] at h0
      exact absurd h0 (by decide)
    have hip : parseIntPart (c :: cs) = none := by
      simp [parseIntPart, hc0, h0]
    have hnum : parseNumber (c :: cs) = none := by
      simp [parseNumber, h9, hip]
    simp only [parseValue]
    rw [if_neg h1, if_neg h2, if_neg h3, if_neg h4, if_neg h5, if_neg h6, hnum]
    rw [if_neg h7, if_neg h8, if_neg h9]

/-- The head surviving `dropWhile` falsifies the predicate. -/
theorem dropWhile_head_false (p : Char → Bool) (cs : List Char) (c : Char) (r : List Char)
    (h : cs.dropWhile p = c :: r) : p c = false := by
  induction cs with
  | nil => simp at h
  | cons x xs ih =>
    by_cases hx : p x
    · rw [List.dropWhile_cons_of_pos hx] at h
      exact ih h
    · rw [List.dropWhile_cons_of_neg hx] at h
      cases h
      exact Bool.of_not_eq_true hx

/-- A character stripped by `str.strip()` but outside JSON whitespace
starts no JSON value. -/
theorem pyWs_not_jsonWs_notStart (c : Char) (hpy : pyWs c = true) :
    notStartChar c = true := by
  simp only [pyWs, Bool.or_eq_true, Bool.and_eq_true, decide_eq_true_eq, beq_iff_eq] at hpy
  have hd : isDigitC c = false := by
    simp only [isDigitC, Bool.and_eq_false_iff, decide_eq_false_iff_not]
    omega
  simp only [notStartChar, Bool.not_eq_true', Bool.or_eq_false_iff, decide_eq_false_iff_not, hd]
  refine ⟨⟨⟨⟨⟨⟨⟨⟨⟨?_, ?_⟩, ?_⟩, ?_⟩, ?_⟩, ?_⟩, ?_⟩, ?_⟩, ?_⟩, trivial⟩ <;>
    (intro hc; subst hc; revert hpy; decide)

/-- Lemma: `json.loads` fails on an empty-or-whitespace payload (the blank check
of line 90 is not what rejects it in form, but nothing blank parses). -/
theorem parseJsonL_blank (cs : List Char) (h : cs.all pyWs = true) : parseJsonL cs = none := by
  have hval : ∀ fuel, parseValue fuel (skipWs cs) = none := by
    intro fuel
    cases hd : skipWs cs with
    | nil => exact parseValue_nil fuel
    | cons c r =>
      have hmem : c ∈ cs := by
        have hm : c ∈ skipWs cs := by rw [hd]; exact List.mem_cons_self c r
        exact (List.dropWhile_sublist jsonWs).mem hm
      have hpy : pyWs c = true := List.all_eq_true.mp h c hmem
      exact parseValue_bad_start fuel c r (pyWs_not_jsonWs_notStart c hpy)
  simp [parseJsonL, hval]

/-- Lemma: `json.loads` fails when the first non-whitespace character starts no
value (e.g. the backtick opening a fenced block). -/
theorem parseJsonL_head_bad (c : Char) (r : List Char)
    (hws : jsonWs c = false) (hstart : notStartChar c = true) :
    parseJsonL (c :: r) = none := by
  have hd : skipWs (c :: r) = c :: r := List.dropWhile_cons_of_neg (by simp [hws])
  simp [parseJsonL, hd, parseValue_bad_start _ c r hstart]

/-- Lemma: `dropUntil` skips past a prefix free of the target character. -/
theorem dropUntil_append (c : Char) (xs ys : List Char) (h : c ∉ xs) :
    dropUntil c (xs ++ ys) = dropUntil c ys := by
  induction xs with
  | nil => rfl
  | cons x xs ih =>
    have hx : x ≠ c := fun hx => h (hx ▸ List.mem_cons_self x xs)
    simp only [List.cons_append, dropUntil, if_neg (fun hh => hx hh)]
    exact ih (fun hm => h (List.mem_cons_of_mem x hm))

/-- Lemma: `dropUntil` fails on a list free of the target character. -/
theorem dropUntil_none (c : Char) (xs : List Char) (h : c ∉ xs) :
    dropUntil c xs = none := by
  have := dropUntil_append c xs [] h
  simpa using this

/-- The greedy bracket scan of line 33 on a payload made of a prefix with
no `[`, a bracketed core, and a suffix with no `]`: the captured group is
exactly the core. -/
theorem bracketSlice_eq (pre mid post : List Char)
    (hpre : '[' ∉ pre) (hpost : ']' ∉ post) :
    bracketSlice (pre ++ ('[' :: mid ++ [']']) ++ post) = some ('[' :: mid ++ [']']) := by
  have h1 : dropUntil '[' (pre ++ ('[' :: mid ++ [']']) ++ post)
      = some (('[' :: mid ++ [']']) ++ post) := by
    rw [List.append_assoc, dropUntil_append '[' pre _ hpre]
    rfl
  have hrev : ((('[' :: mid ++ [']']) ++ post)).reverse
      = post.reverse ++ (']' :: (mid.reverse ++ ['['])) := by
    simp
  have h2 : dropUntil ']' ((('[' :: mid ++ [']']) ++ post)).reverse
      = some (']' :: (mid.reverse ++ ['['])) := by
    rw [hrev, dropUntil_append ']' post.reverse _ (by simpa using hpost)]
    rfl
  simp only [bracketSlice, h1, h2]
  simp

/-- A direct parse short-circuits extraction. -/
theorem extractL_direct (cs : List Char) (v : Json) (h : parseJsonL cs = some v) :
    extractL cs = .ok v := by
  simp [extractL, h]

/-- Extraction on an empty-or-whitespace payload raises: nothing blank
parses directly, the fenced search never matches, and a blank payload has
no `[` for the bracket scan. -/
theorem extractL_blank (cs : List Char) (h : cs.all pyWs = true) :
    extractL cs = .error () := by
  have hbr : bracketSlice cs = none := by
    have hnm : '[' ∉ cs := by
      intro hmem
      exact absurd (List.all_eq_true.mp h _ hmem) (by decide)
    simp [bracketSlice, dropUntil_none '[' cs hnm]
  simp [extractL, parseJsonL_blank cs h, fencedGroup, hbr]

/-- A payload from which extraction recovers a value is not blank, so the
check of line 90 lets it through. -/
theorem pyBlank_false_of_extract_ok (s : String) (v : Json)
    (h : extract_json s = .ok v) : pyBlank s = false := by
  cases hb : pyBlank s with
  | false => rfl
  | true =>
    rw [extract_json, extractL_blank s.data hb] at h
    exact absurd h (by simp)

/-- The loop of lines 106-113 accepts exactly the lists whose elements all
pass the minimal item check, whatever the starting index. -/
theorem checkItems_none_iff (i : Nat) (items : List Json) :
    checkItems i items = none ↔ ∀ it ∈ items, itemOk it = true := by
  induction items generalizing i with
  | nil => simp [checkItems]
  | cons it rest ih =>
    cases it with
    | obj es =>
      cases hm : firstMissing es with
      | some k => simp [checkItems, hm, itemOk]
      | none =>
        simp only [checkItems, hm]
        rw [ih (i + 1)]
        simp [itemOk, hm]
    | null => simp [checkItems, itemOk]
    | bool b => simp [checkItems, itemOk]
    | num lx => simp [checkItems, itemOk]
    | str cp => simp [checkItems, itemOk]
    | arr xs => simp [checkItems, itemOk]

/-- The loop of lines 106-113 stops at the first offending element and
reports its index together with the first missing key. -/
theorem checkItems_first_bad (good : List Json) (i : Nat) (es : List (List Nat × Json))
    (k : List Nat) (rest : List Json)
    (hgood : ∀ g ∈ good, itemOk g = true) (hk : firstMissing es = some k) :
    checkItems i (good ++ .obj es :: rest) = some (.missingKey (i + good.length) k) := by
  induction good generalizing i with
  | nil => simp [checkItems, hk]
  | cons g gs ih =>
    have hg : itemOk g = true := hgood g (List.mem_cons_self g gs)
    cases g with
    | obj es2 =>
      have hfm : firstMissing es2 = none := by
        simp only [itemOk] at hg
        exact Option.isNone_iff_eq_none.mp hg
      have step : checkItems i ((Json.obj es2 :: gs) ++ Json.obj es :: rest)
          = checkItems (i + 1) (gs ++ Json.obj es :: rest) := by
        rw [List.cons_append]
        simp [checkItems, hfm]
      rw [step, ih (i + 1) (fun g hm => hgood g (List.mem_cons_of_mem _ hm))]
      simp only [List.length_cons]
      have harith : i + 1 + gs.length = i + (gs.length + 1) := by omega
      rw [harith]
    | null => simp [itemOk] at hg
    | bool b => simp [itemOk] at hg
    | num lx => simp [itemOk] at hg
    | str cp => simp [itemOk] at hg
    | arr xs => simp [itemOk] at hg

/-! ## The claims -/

/-- C1 (code bug): the spec's strategy 2 is unreachable.  On the payload
`"x ```json\n[2]\n``` ]"` the direct parse fails and the payload contains
a triple-backtick fenced block tagged `json` whose interior `[2]` parses
as the array `[2]`; the claim (and the docstring of `_extract_json`) say
the interior is then parsed and returned.  In the code as written the
fenced search of line 30 matches nothing -- its pattern's bracket
literals were corrupted into `$begin:math:display$` / `$end:math:display$`
text that no input can satisfy (`fencedPattern_unmatchable`) -- so control
falls to the bracket scan, whose slice `[2]\n``` ]` does not parse, and
`_extract_json` raises a fatal `JSONDecodeError` instead. -/
theorem fenced_block_payload_fatal :
    parseJsonL ("x ```json\n[2]\n``` ]").data = none ∧
    ("x ```json\n[2]\n``` ]" : String) = "x " ++ "```json\n" ++ "[2]" ++ "\n``` ]" ∧
    parseJsonL "[2]".data = some (Json.arr [Json.num ['2']]) ∧
    fencedGroup ("x ```json\n[2]\n``` ]").data = none ∧
    extract_json "x ```json\n[2]\n``` ]" = .error () :=
  ⟨rfl, rfl, rfl, rfl, rfl⟩

/-- C2: a payload that is a well-formed JSON array wrapped in a
triple-backtick fenced code block (optionally tagged `json`) extracts
successfully to the same value as parsing the fenced interior directly.
(In the code as written the value is recovered by the greedy bracket scan
-- the corrupted fenced pattern of line 30 never matches -- but the
observable result equals the direct parse of the interior.) -/
theorem extract_json_fenced_payload (tagged : Bool) (mid : List Char) (xs : List Json)
    (harr : parseJsonL ('[' :: mid ++ [']']) = some (Json.arr xs)) :
    extract_json (String.mk ((if tagged then "```json\n" else "```\n").data
      ++ ('[' :: mid ++ [']']) ++ "\n```".data)) = .ok (Json.arr xs) := by
  cases tagged with
  | true =>
    show extractL ("```json\n".data ++ ('[' :: mid ++ [']']) ++ "\n```".data) = .ok (Json.arr xs)
    have hdirect : parseJsonL ("```json\n".data ++ ('[' :: mid ++ [']']) ++ "\n```".data)
        = none := parseJsonL_head_bad '`' _ (by decide) (by decide)
    have hbr := bracketSlice_eq "```json\n".data mid "\n```".data (by decide) (by decide)
    simp only [extractL, hdirect, fencedGroup, hbr, harr]
  | false =>
    show extractL ("```\n".data ++ ('[' :: mid ++ [']']) ++ "\n```".data) = .ok (Json.arr xs)
    have hdirect : parseJsonL ("```\n".data ++ ('[' :: mid ++ [']']) ++ "\n```".data)
        = none := parseJsonL_head_bad '`' _ (by decide) (by decide)
    have hbr := bracketSlice_eq "```\n".data mid "\n```".data (by decide) (by decide)
    simp only [extractL, hdirect, fencedGroup, hbr, harr]

/-- C2 witness: the fenced payload "```json\n[]\n```" extracts to the empty array. -/
theorem extract_json_fenced_payload_witness :
    extract_json (String.mk ((if true then "```json\n" else "```\n").data
      ++ ('[' :: [] ++ [']']) ++ "\n```".data)) = .ok (Json.arr []) :=
  extract_json_fenced_payload true [] [] rfl

/-- C3: when the direct parse fails (and the fenced search, which never
matches, has not succeeded), extraction takes the substring from the first
`[` of the payload to the last `]` and parses exactly that; a payload of
prose before and after a single well-formed bracketed array therefore
recovers that array. -/
theorem extract_json_bracket_scan_recovers (pre mid post : List Char) (xs : List Json)
    (hdirect : parseJsonL (pre ++ ('[' :: mid ++ [']']) ++ post) = none)
    (hpre : '[' ∉ pre) (hpost : ']' ∉ post)
    (harr : parseJsonL ('[' :: mid ++ [']']) = some (Json.arr xs)) :
    extract_json (String.mk (pre ++ ('[' :: mid ++ [']']) ++ post)) = .ok (Json.arr xs) := by
  show extractL (pre ++ ('[' :: mid ++ [']']) ++ post) = .ok (Json.arr xs)
  simp only [extractL, hdirect, fencedGroup, bracketSlice_eq pre mid post hpre hpost, harr]

/-- C3 witness: prose before and after `[1]` still yields the array `[1]`. -/
theorem extract_json_bracket_scan_recovers_witness :
    extract_json (String.mk ("Here are the results: ".data ++ ('[' :: "1".data ++ [']'])
      ++ " Thanks!".data)) = .ok (Json.arr [Json.num ['1']]) :=
  extract_json_bracket_scan_recovers "Here are the results: ".data "1".data " Thanks!".data
    [Json.num ['1']] rfl (by decide) (by decide) rfl

/-- C4: a payload that is a well-formed JSON array whose elements are all
objects carrying the four required keys processes to exactly the parsed
item list -- same length, same order, every field passed through verbatim
(round-trip identity). -/
theorem processPayload_roundtrip_identity (s : String) (items : List Json)
    (hparse : parseJsonL s.data = some (Json.arr items))
    (hitems : ∀ it ∈ items, itemOk it = true) :
    processPayload s = .ok items := by
  have hex : extract_json s = .ok (Json.arr items) := extractL_direct s.data _ hparse
  have hb : pyBlank s = false := pyBlank_false_of_extract_ok s _ hex
  simp [processPayload, hb, hex, (checkItems_none_iff 0 items).mpr hitems]

/-- C4 witness: a one-element well-formed payload round-trips verbatim. -/
theorem processPayload_roundtrip_identity_witness :
    processPayload "[\x7b\"title\":\"t\",\"url\":\"u\",\"summary\":\"s\",\"published\":\"p\"\x7d]"
      = .ok [Json.obj [(codes "title", Json.str (codes "t")), (codes "url", Json.str (codes "u")),
          (codes "summary", Json.str (codes "s")), (codes "published", Json.str (codes "p"))]] :=
  processPayload_roundtrip_identity _ _ rfl (by decide)

/-- C5: an empty or whitespace-only payload is fatal with the
empty-payload fault of line 91, before and instead of any parse: the
check of line 90 precedes extraction in `processPayload`, the fault is
distinct from the parse-failure fault of line 97, and indeed extraction
itself would have raised rather than produced a value. -/
theorem processPayload_blank_fatal (s : String) (h : pyBlank s = true) :
    processPayload s = .error .emptyPayload ∧ extract_json s = .error () ∧
      Fault.emptyPayload ≠ Fault.malformedPayload :=
  ⟨by simp [processPayload, h], extractL_blank s.data h, by decide⟩

/-- C5 witness: the payload " \t\n" is blank and fatal. -/
theorem processPayload_blank_fatal_witness :
    processPayload " \t\n" = .error .emptyPayload ∧ extract_json " \t\n" = .error () ∧
      Fault.emptyPayload ≠ Fault.malformedPayload :=
  processPayload_blank_fatal " \t\n" (by decide)

/-- C6: if the recovered array has a first offending element -- an object
missing a required key, after well-formed elements -- the pipeline is
fatal with the fault of line 112 carrying that element's index and the
first missing key (in the order title, url, summary, published), and no
list is returned. -/
theorem processPayload_missing_key_fatal (s : String) (good rest : List Json)
    (es : List (List Nat × Json)) (k : List Nat)
    (hex : extract_json s = .ok (Json.arr (good ++ Json.obj es :: rest)))
    (hgood : ∀ g ∈ good, itemOk g = true)
    (hk : firstMissing es = some k) :
    processPayload s = .error (.missingKey good.length k) ∧
      ∀ l : List Json, processPayload s ≠ .ok l := by
  have hb : pyBlank s = false := pyBlank_false_of_extract_ok s _ hex
  have hchk := checkItems_first_bad good 0 es k rest hgood hk
  constructor
  · simp only [processPayload, hb, Bool.false_eq_true, if_false, hex, hchk]
    simp
  · intro l hl
    simp only [processPayload, hb, Bool.false_eq_true, if_false, hex, hchk] at hl
    simp at hl

/-- C6 witness: an element with no `url` key is rejected at index 0 with
the key `url`. -/
theorem processPayload_missing_key_fatal_witness :
    processPayload "[\x7b\"title\":\"a\",\"summary\":\"b\",\"published\":\"c\"\x7d]"
      = .error (.missingKey ([] : List Json).length (codes "url")) :=
  (processPayload_missing_key_fatal
    "[\x7b\"title\":\"a\",\"summary\":\"b\",\"published\":\"c\"\x7d]" [] []
    [(codes "title", Json.str (codes "a")), (codes "summary", Json.str (codes "b")),
      (codes "published", Json.str (codes "c"))]
    (codes "url") rfl (by simp) rfl).1

/-- C7: when the first attempt raises a transport-level fault and the
second succeeds, the overall call succeeds, exactly two attempts are
made, they carry identical request payloads, and they are separated by
the fixed 1.5-second sleep. -/
theorem call_retry_transport_then_ok (transport : Transport) (sysm usr : String)
    (e : TransportError) (r : String)
    (h0 : transport (mkRequest sysm usr) 0 = .error e)
    (h1 : transport (mkRequest sysm usr) 1 = .ok r) :
    call_responses_with_retry transport sysm usr defaultRetryDelay
      = ([.call (mkRequest sysm usr), .sleepEv defaultRetryDelay, .call (mkRequest sysm usr)],
        .ok r) ∧ defaultRetryDelay = 3 / 2 :=
  ⟨by simp [call_responses_with_retry, h0, h1], rfl⟩

/-- C7 witness: a transport failing only on attempt 0 yields success with
two identical calls around one sleep. -/
theorem call_retry_transport_then_ok_witness :
    call_responses_with_retry
        (fun _ n => if n = 0 then .error "ReadTimeout" else .ok "[]") "s" "u"
        defaultRetryDelay
      = ([.call (mkRequest "s" "u"), .sleepEv defaultRetryDelay, .call (mkRequest "s" "u")],
        .ok "[]") ∧ defaultRetryDelay = 3 / 2 :=
  call_retry_transport_then_ok _ "s" "u" "ReadTimeout" "[]" rfl rfl

/-- C8: when both attempts raise transport-level faults, `call_llm` is
fatal (the handler of lines 80-82 exits non-zero) after exactly the two
logged attempts -- no third call appears in the event log. -/
theorem call_llm_transport_fatal (transport : Transport) (prompt : String)
    (e1 e2 : TransportError)
    (h0 : transport (mkRequest system_msg prompt) 0 = .error e1)
    (h1 : transport (mkRequest system_msg prompt) 1 = .error e2) :
    call_llm transport prompt
      = ([.call (mkRequest system_msg prompt), .sleepEv defaultRetryDelay,
          .call (mkRequest system_msg prompt)], .error .transport) := by
  simp [call_llm, call_responses_with_retry, h0, h1]

/-- C8 witness: an always-failing transport is fatal after two attempts. -/
theorem call_llm_transport_fatal_witness :
    call_llm (fun _ _ => .error "ConnectTimeout") "p"
      = ([.call (mkRequest system_msg "p"), .sleepEv defaultRetryDelay,
          .call (mkRequest system_msg "p")], .error .transport) :=
  call_llm_transport_fatal _ "p" "ConnectTimeout" "ConnectTimeout" rfl rfl

/-- C9: validation is the minimal key-presence check and nothing else: a
recovered array passes through unchanged exactly when every element is an
object carrying the four required keys.  `itemOk` never looks at values
-- a `published` value that is not a timestamp is accepted -- and never
rejects extra keys. -/
theorem validation_minimal_laxness (s : String) (items : List Json)
    (hex : extract_json s = .ok (Json.arr items)) :
    processPayload s = .ok items ↔ ∀ it ∈ items, itemOk it = true := by
  have hb : pyBlank s = false := pyBlank_false_of_extract_ok s _ hex
  constructor
  · intro hok
    rw [← checkItems_none_iff 0 items]
    cases hc : checkItems 0 items with
    | none => rfl
    | some f =>
      rw [processPayload] at hok
      rw [hb] at hok
      simp only [Bool.false_eq_true, if_false, hex, hc] at hok
      exact absurd hok (by simp)
  · intro hall
    simp [processPayload, hb, hex, (checkItems_none_iff 0 items).mpr hall]

/-- C9 witness: an item whose `published` is not a timestamp and which
carries an extra key is accepted and passed through unchanged. -/
theorem validation_minimal_laxness_witness :
    processPayload
        "[\x7b\"title\":\"t\",\"url\":\"u\",\"summary\":\"s\",\"published\":\"not-a-timestamp\",\"extra\":1\x7d]"
      = .ok [Json.obj [(codes "title", Json.str (codes "t")), (codes "url", Json.str (codes "u")),
          (codes "summary", Json.str (codes "s")),
          (codes "published", Json.str (codes "not-a-timestamp")),
          (codes "extra", Json.num ['1'])]] :=
  (validation_minimal_laxness
    "[\x7b\"title\":\"t\",\"url\":\"u\",\"summary\":\"s\",\"published\":\"not-a-timestamp\",\"extra\":1\x7d]"
    [Json.obj [(codes "title", Json.str (codes "t")), (codes "url", Json.str (codes "u")),
      (codes "summary", Json.str (codes "s")),
      (codes "published", Json.str (codes "not-a-timestamp")),
      (codes "extra", Json.num ['1'])]] rfl).mpr (by decide)

/-- C10: a recovered empty array is a success returning the empty list --
zero items is no error, the literal payload "[]" succeeds, and the empty
STRING payload is instead the fatal empty-payload fault; the instruction
string does ask for 12 items, which validation never counts. -/
theorem processPayload_empty_array_ok :
    (∀ s : String, extract_json s = .ok (Json.arr []) → processPayload s = .ok []) ∧
      processPayload "[]" = .ok [] ∧
      processPayload "" = .error .emptyPayload ∧
      "12".data <:+: system_msg.data := by
  refine ⟨?_, rfl, rfl, by decide⟩
  intro s hex
  have hb : pyBlank s = false := pyBlank_false_of_extract_ok s _ hex
  simp [processPayload, hb, hex, checkItems]

/-- C10 witness: the general empty-array conjunct applied to the literal
payload "[]". -/
theorem processPayload_empty_array_ok_witness :
    processPayload "[]" = .ok [] :=
  processPayload_empty_array_ok.1 "[]" rfl
